import Mathlib

/-!
Verification of the Elysian trading system's ML signal scorer
(`src/ml/model_utils.py`, class `ModelPredictor`).

Shallow embedding notes.

* A bar is represented by its close price as a rational number: the scorer
  reads only the `close` column.  A whole input argument is `RawBars`:
  `some closes` is a well-formed list of numeric bars, `none` stands for a
  malformed argument whose conversion/processing raises inside the `try`
  block (any such fault reaches the `except` handler).
* Python floats are modelled by `ℚ`.  NaN values arising inside the
  volatility pipeline (pandas rolling windows with insufficient history)
  are modelled by `Option ℚ` with `none` = NaN.  The final Python clamp
  `max(0.05, min(1.0, v))` evaluates to `1.0` when `v` is NaN, because
  CPython's `min(1.0, nan)` keeps `1.0` (`nan < 1.0` is false) and then
  `max(0.05, 1.0) = 1.0`; `pyClampVol` reproduces this.
* `rolling(20).std() * sqrt(252)` produces irrational values, so the
  development is parametric in `stdFn : List ℚ → ℚ`, the annualized sample
  standard deviation of a 20-element window.  Every theorem below is proved
  for all instantiations of `stdFn`, hence in particular for the real one;
  no theorem depends on a particular standard-deviation value.
* `self.metadata` is the only per-instance state; file I/O of
  `load_metadata` is out of scope, so a predictor is just its metadata
  field (present or absent).
-/

namespace Elysian

/-- A `ModelPredictor` instance: its only state is the optionally loaded
metadata document (`None` when no metadata file was present). -/
structure ModelPredictor where
  metadata : Option String

/-- Input to the predictors: `some closes` is a list of numeric close
prices, `none` a malformed argument that raises during processing. -/
abbrev RawBars := Option (List ℚ)

/-- CPython's two-argument `min`: start from the first argument, replace it
iff the second compares strictly smaller.  (On NaN the comparison is false,
so the first argument survives — the fact `pyClampVol` depends on.) -/
def pyMin (a b : ℚ) : ℚ := if b < a then b else a

/-- CPython's two-argument `max`: the second argument wins iff it compares
strictly greater. -/
def pyMax (a b : ℚ) : ℚ := if a < b then b else a

/-- Arithmetic mean of a list (only ever applied to nonempty windows). -/
def mean (xs : List ℚ) : ℚ := xs.sum / xs.length

/-- Trailing window of the last `w` elements, as used by a pandas
`rolling(window=w)` aggregate evaluated at the final index. -/
def lastN (w : Nat) (xs : List ℚ) : List ℚ := xs.drop (xs.length - w)

/-- The per-bar gain series of `calculate_rsi`:
`delta = prices.diff()`, `gain = delta.where(delta > 0, 0)`.
The leading `diff` entry is NaN, and `where` maps it to `0` (a NaN
comparison is false), so the series starts with `0`. -/
def gains (cs : List ℚ) : List ℚ :=
  0 :: List.zipWith (fun a b => if a < b then b - a else 0) cs cs.tail

/-- The per-bar loss series of `calculate_rsi`:
`loss = (-delta).where(delta < 0, 0)`, leading entry `0` as for `gains`. -/
def losses (cs : List ℚ) : List ℚ :=
  0 :: List.zipWith (fun a b => if b < a then a - b else 0) cs cs.tail

/-- `calculate_rsi(df['close'])` evaluated at the final index, for inputs of
length at least 15 (the 14-bar rolling means are then defined there).
`avg_loss = 0, avg_gain > 0` gives `rs = inf`, `rsi = 100 - 100/inf = 100`;
`avg_loss = avg_gain = 0` gives `rs = NaN`, filled to `50` by
`fillna(50)`; otherwise the arithmetic is exact. -/
def rsiLast (cs : List ℚ) : ℚ :=
  let ag := mean (lastN 14 (gains cs))
  let al := mean (lastN 14 (losses cs))
  if al = 0 then (if ag = 0 then 50 else 100) else 100 - 100 / (1 + ag / al)

/-- The momentum contribution `min(0.2, max(-0.2, momentum * 2))` with
`momentum = (latest - iloc[-5]) / iloc[-5]`.  When `iloc[-5] = 0` the
division yields `inf` (latest positive), `-inf` (latest negative) or NaN
(latest zero); pushing those through CPython `max(-0.2, ·)` then
`min(0.2, ·)` gives `0.2`, `-0.2`, `-0.2` respectively. -/
def momTerm (cs : List ℚ) : ℚ :=
  let cl := cs.getD (cs.length - 1) 0
  let c5 := cs.getD (cs.length - 5) 0
  if c5 = 0 then (if 0 < cl then 0.2 else -0.2)
  else pyMin 0.2 (pyMax (-0.2) ((cl - c5) / c5 * 2))

/-- The rule-based score of `predict_price_direction` for inputs that pass
the length guard: base 0.5, trend stack `close > sma_5 > sma_20` (Python
chained strict comparisons), RSI thresholds, momentum, final clamp
`max(0.1, min(0.9, score))`. -/
def directionScore (cs : List ℚ) : ℚ :=
  let cl := cs.getD (cs.length - 1) 0
  let s5 := mean (lastN 5 cs)
  let s20 := mean (lastN 20 cs)
  let rsi := rsiLast cs
  let t : ℚ := if s5 < cl ∧ s20 < s5 then 0.2
               else if cl < s5 ∧ s5 < s20 then -0.2 else 0
  let r : ℚ := if rsi < 30 then 0.15 else if 70 < rsi then -0.15 else 0
  let m : ℚ := if 5 ≤ cs.length then momTerm cs else 0
  pyMax 0.1 (pyMin 0.9 (0.5 + t + r + m))

/-- Body of the `try` block of `predict_price_direction`: a malformed
argument raises (`error`), otherwise the guard or the score returns. -/
def predict_price_direction_body (_self : ModelPredictor) (d : RawBars) :
    Except Unit ℚ :=
  match d with
  | none => Except.error ()
  | some cs =>
      if cs.length < 20 then Except.ok 0.5 else Except.ok (directionScore cs)

/-- `ModelPredictor.predict_price_direction`: the `except` handler maps any
fault to the neutral default 0.5. -/
def predict_price_direction (self : ModelPredictor) (d : RawBars) : ℚ :=
  match predict_price_direction_body self d with
  | Except.ok v => v
  | Except.error _ => 0.5

/-- `df['close'].pct_change().dropna()` for a list of nonzero closes:
`returns[i] = closes[i+1]/closes[i] - 1`, the leading NaN dropped. -/
def pctChangeDropna (cs : List ℚ) : List ℚ :=
  List.zipWith (fun a b => b / a - 1) cs cs.tail

/-- The 20-element window of the returns series ending at index `i`. -/
def windowAt (rets : List ℚ) (i : Nat) : List ℚ :=
  (rets.take (i + 1)).drop (i - 19)

/-- `returns.rolling(window=20).std() * np.sqrt(252)`: NaN (`none`) until
20 observations have accumulated, afterwards the annualized sample standard
deviation of the trailing window (represented by the parameter `stdFn`). -/
def rollingVol (stdFn : List ℚ → ℚ) (rets : List ℚ) : List (Option ℚ) :=
  (List.range rets.length).map
    (fun i => if 19 ≤ i then some (stdFn (windowAt rets i)) else none)

/-- `volatility.iloc[-1] if not volatility.empty else 0.2` — the last entry
of the series (possibly NaN); the 0.2 default only if the series is empty. -/
def latestVol (vols : List (Option ℚ)) : Option ℚ :=
  match vols.getLast? with
  | none => some 0.2
  | some v => v

/-- `volatility.mean() if not volatility.empty else 0.2` — pandas `mean`
skips NaN entries and returns NaN when every entry is NaN. -/
def longTermVol (vols : List (Option ℚ)) : Option ℚ :=
  if vols.isEmpty then some 0.2
  else
    let xs := vols.filterMap id
    if xs.isEmpty then none else some (mean xs)

/-- `0.7 * latest_vol + 0.3 * long_term_vol`, NaN-propagating. -/
def blend (a b : Option ℚ) : Option ℚ :=
  match a, b with
  | some x, some y => some (0.7 * x + 0.3 * y)
  | _, _ => none

/-- `max(0.05, min(1.0, v))` under CPython comparison semantics:
for NaN input, `min(1.0, nan) = 1.0` and `max(0.05, 1.0) = 1.0`. -/
def pyClampVol (v : Option ℚ) : ℚ :=
  match v with
  | some x => pyMax 0.05 (pyMin 1 x)
  | none => 1

/-- Body of the `try` block of `predict_volatility`. -/
def predict_volatility_body (stdFn : List ℚ → ℚ) (_self : ModelPredictor)
    (d : RawBars) : Except Unit ℚ :=
  match d with
  | none => Except.error ()
  | some cs =>
      if cs.length < 20 then Except.ok 0.2
      else
        let vols := rollingVol stdFn (pctChangeDropna cs)
        Except.ok (pyClampVol (blend (latestVol vols) (longTermVol vols)))

/-- `ModelPredictor.predict_volatility`: the `except` handler maps any
fault to the default volatility 0.2. -/
def predict_volatility (stdFn : List ℚ → ℚ) (self : ModelPredictor)
    (d : RawBars) : ℚ :=
  match predict_volatility_body stdFn self d with
  | Except.ok v => v
  | Except.error _ => 0.2

/-- `ModelPredictor.get_prediction_confidence`: the fixed step function. -/
def get_prediction_confidence (_self : ModelPredictor) (q : ℚ) : ℚ :=
  if 0.8 < q then 0.75
  else if 0.6 < q then 0.65
  else if 0.4 < q then 0.55
  else 0.45

/-- The per-instrument record assembled by `batch_predict` (the wall-clock
`timestamp` field is outside the model). -/
structure PredictionRecord where
  price_direction_prob : ℚ
  predicted_volatility : ℚ
  confidence : ℚ
deriving DecidableEq

/-- `ModelPredictor.batch_predict` over an ordered symbol/data mapping.
An entry is `none` exactly when the loop body raises; since the two
predictors absorb their own faults and the record assembly is total, the
loop body never raises and every entry is `some` record. -/
def batch_predict (stdFn : List ℚ → ℚ) (self : ModelPredictor)
    (data : List (String × RawBars)) :
    List (String × Option PredictionRecord) :=
  data.map (fun sd =>
    (sd.1, some { price_direction_prob := predict_price_direction self sd.2
                  predicted_volatility := predict_volatility stdFn self sd.2
                  confidence := get_prediction_confidence self 0.7 }))

/-- A degenerate instantiation of the standard-deviation parameter, used
only to state closed (fully concrete) corollaries; the general theorems
hold for every `stdFn`. -/
def stdZero : List ℚ → ℚ := fun _ => 0

/-- Validity of an input per the spec's data model: close prices are
positive reals (a malformed argument carries no prices). -/
def posCloses : RawBars → Prop
  | none => True
  | some cs => ∀ c ∈ cs, 0 < c

instance : DecidablePred posCloses := fun d => by
  cases d <;> simp [posCloses] <;> infer_instance

/-- The flat 20-bar sequence of the end-to-end scenario: the close price
100 repeated for exactly 20 bars. -/
def flat20 : List ℚ :=
  [100, 100, 100, 100, 100, 100, 100, 100, 100, 100,
   100, 100, 100, 100, 100, 100, 100, 100, 100, 100]

/-- A strictly increasing 20-bar close series, concrete witness for the
RSI = 100 extreme. -/
def incCloses : List ℚ :=
  [1, 2, 3, 4, 5, 6, 7, 8, 9, 10,
   11, 12, 13, 14, 15, 16, 17, 18, 19, 20]

/-- A strictly decreasing 20-bar close series, concrete witness for the
RSI = 0 extreme. -/
def decCloses : List ℚ :=
  [20, 19, 18, 17, 16, 15, 14, 13, 12, 11,
   10, 9, 8, 7, 6, 5, 4, 3, 2, 1]

/-- Clamp as the spec words it: `clamp(x, lo, hi)` pins `x` into
`[lo, hi]`. -/
def specClamp (lo hi x : ℚ) : ℚ := max lo (min hi x)

/-- Trend adjustment exactly as the claim states it: +0.2 if
`close > sma_5 > sma_20` with strict comparisons, −0.2 if
`close < sma_5 < sma_20` strictly, and 0 on any tie, all at the latest
bar. -/
def specTrendAdj (cs : List ℚ) : ℚ :=
  let close := cs.getD (cs.length - 1) 0
  let sma5 := mean (lastN 5 cs)
  let sma20 := mean (lastN 20 cs)
  if sma5 < close ∧ sma20 < sma5 then 0.2
  else if close < sma5 ∧ sma5 < sma20 then -0.2
  else 0

/-- RSI adjustment exactly as the claim states it: +0.15 if `rsi < 30`,
−0.15 if `rsi > 70`, and 0 at exactly 30 or 70. -/
def specRsiAdj (cs : List ℚ) : ℚ :=
  if rsiLast cs < 30 then 0.15 else if 70 < rsiLast cs then -0.15 else 0

/-- Momentum adjustment exactly as the claim states it:
`clamp(momentum * 2, −0.2, +0.2)` with
`momentum = (latest_close − close_5_bars_ago) / close_5_bars_ago`, the
trailing fifth close (`iloc[-5]`). -/
def specMomAdj (cs : List ℚ) : ℚ :=
  let close := cs.getD (cs.length - 1) 0
  let c5 := cs.getD (cs.length - 5) 0
  specClamp (-0.2) 0.2 ((close - c5) / c5 * 2)

/-- The 3-instrument batch of the batch-isolation scenario: one instrument
(`"BADX"`) carries a malformed argument, the other two carry short but
well-formed bar sequences. -/
def dataC5 : List (String × RawBars) :=
  [("AAPL", some [10, 11, 12]), ("BADX", none), ("MSFT", some [7, 8])]

lemma pyMin_eq_min (a b : ℚ) : pyMin a b = min a b := by
  unfold pyMin
  rcases lt_or_ge b a with h | h
  · rw [if_pos h, min_eq_right h.le]
  · rw [if_neg (not_lt.mpr h), min_eq_left h]

lemma pyMax_eq_max (a b : ℚ) : pyMax a b = max a b := by
  unfold pyMax
  rcases lt_or_ge a b with h | h
  · rw [if_pos h, max_eq_right h.le]
  · rw [if_neg (not_lt.mpr h), max_eq_left h]

lemma pyClamp_bounds {lo hi : ℚ} (h : lo ≤ hi) (x : ℚ) :
    lo ≤ pyMax lo (pyMin hi x) ∧ pyMax lo (pyMin hi x) ≤ hi := by
  rw [pyMax_eq_max, pyMin_eq_min]
  exact ⟨le_max_left _ _, max_le h (min_le_left _ _)⟩

/-- The predictor methods never read `self.metadata`; applications at two
different instances are definitionally equal. -/
lemma predict_price_direction_self_irrel (p q : ModelPredictor) (d : RawBars) :
    predict_price_direction p d = predict_price_direction q d := rfl

lemma predict_volatility_self_irrel (stdFn : List ℚ → ℚ)
    (p q : ModelPredictor) (d : RawBars) :
    predict_volatility stdFn p d = predict_volatility stdFn q d := rfl

lemma get_prediction_confidence_self_irrel (p q : ModelPredictor) (x : ℚ) :
    get_prediction_confidence p x = get_prediction_confidence q x := rfl

lemma batch_predict_self_irrel (stdFn : List ℚ → ℚ) (p q : ModelPredictor)
    (data : List (String × RawBars)) :
    batch_predict stdFn p data = batch_predict stdFn q data := rfl

lemma blend_none_left (b : Option ℚ) : blend none b = none := rfl

lemma predict_price_direction_none (self : ModelPredictor) :
    predict_price_direction self none = 0.5 := rfl

lemma predict_price_direction_some (self : ModelPredictor) (cs : List ℚ) :
    predict_price_direction self (some cs) =
      if cs.length < 20 then 0.5 else directionScore cs := by
  by_cases h : cs.length < 20 <;>
    simp [predict_price_direction, predict_price_direction_body, h]

lemma predict_volatility_none (stdFn : List ℚ → ℚ) (self : ModelPredictor) :
    predict_volatility stdFn self none = 0.2 := rfl

lemma predict_volatility_some (stdFn : List ℚ → ℚ) (self : ModelPredictor)
    (cs : List ℚ) :
    predict_volatility stdFn self (some cs) =
      if cs.length < 20 then 0.2
      else
        pyClampVol (blend (latestVol (rollingVol stdFn (pctChangeDropna cs)))
          (longTermVol (rollingVol stdFn (pctChangeDropna cs)))) := by
  by_cases h : cs.length < 20 <;>
    simp [predict_volatility, predict_volatility_body, h]

/-- Lower and upper clamp bounds for the direction prediction, on every
input (well-formed or malformed). -/
lemma dir_bounds (self : ModelPredictor) (d : RawBars) :
    0.1 ≤ predict_price_direction self d ∧ predict_price_direction self d ≤ 0.9 := by
  match d with
  | none => rw [predict_price_direction_none]; norm_num
  | some cs =>
      rw [predict_price_direction_some]
      by_cases h : cs.length < 20
      · rw [if_pos h]; norm_num
      · rw [if_neg h]
        unfold directionScore
        exact pyClamp_bounds (by norm_num) _

/-- `pyClampVol` always lands in `[0.05, 1]` (on NaN it yields `1`). -/
lemma pyClampVol_bounds (v : Option ℚ) :
    0.05 ≤ pyClampVol v ∧ pyClampVol v ≤ 1 := by
  match v with
  | none => unfold pyClampVol; norm_num
  | some x => exact pyClamp_bounds (by norm_num) x

/-- Lower and upper clamp bounds for the volatility prediction, on every
input and for every standard-deviation semantics. -/
lemma vol_bounds (stdFn : List ℚ → ℚ) (self : ModelPredictor) (d : RawBars) :
    0.05 ≤ predict_volatility stdFn self d ∧ predict_volatility stdFn self d ≤ 1 := by
  match d with
  | none => rw [predict_volatility_none]; norm_num
  | some cs =>
      rw [predict_volatility_some]
      by_cases h : cs.length < 20
      · rw [if_pos h]; norm_num
      · rw [if_neg h]
        exact pyClampVol_bounds _

lemma gains_flat20 :
    gains flat20 = [0, 0, 0, 0, 0, 0, 0, 0, 0, 0, 0, 0, 0, 0, 0, 0, 0, 0, 0, 0] := by
  simp [gains, flat20]

lemma losses_flat20 :
    losses flat20 = [0, 0, 0, 0, 0, 0, 0, 0, 0, 0, 0, 0, 0, 0, 0, 0, 0, 0, 0, 0] := by
  simp [losses, flat20]

lemma rsiLast_flat20 : rsiLast flat20 = 50 := by
  have hg : mean (lastN 14 (gains flat20)) = 0 := by
    rw [gains_flat20]
    norm_num [mean, lastN]
  have hl : mean (lastN 14 (losses flat20)) = 0 := by
    rw [losses_flat20]
    norm_num [mean, lastN]
  unfold rsiLast
  rw [hg, hl, if_pos rfl, if_pos rfl]

lemma mean_lastN5_flat20 : mean (lastN 5 flat20) = 100 := by
  have h : lastN 5 flat20 = [100, 100, 100, 100, 100] := rfl
  rw [h]
  norm_num [mean]

lemma mean_lastN20_flat20 : mean (lastN 20 flat20) = 100 := by
  have h : lastN 20 flat20 = flat20 := rfl
  rw [h]
  norm_num [mean, flat20]

lemma momTerm_flat20 : momTerm flat20 = 0 := by
  have hcl : flat20.getD (flat20.length - 1) 0 = 100 := rfl
  have hc5 : flat20.getD (flat20.length - 5) 0 = 100 := rfl
  unfold momTerm
  rw [hcl, hc5, if_neg (by norm_num)]
  norm_num [pyMin, pyMax]

lemma directionScore_flat20 : directionScore flat20 = 0.5 := by
  unfold directionScore
  rw [mean_lastN5_flat20, mean_lastN20_flat20, rsiLast_flat20]
  have hcl : flat20.getD (flat20.length - 1) 0 = 100 := rfl
  rw [hcl, momTerm_flat20]
  norm_num [pyMin, pyMax]

/-- With fewer than 20 returns, every entry of the rolling-volatility
series is NaN: the 20-observation window is never filled. -/
lemma rollingVol_all_none (stdFn : List ℚ → ℚ) (rets : List ℚ)
    (h : rets.length < 20) : ∀ x ∈ rollingVol stdFn rets, x = none := by
  intro x hx
  rw [rollingVol] at hx
  simp only [List.mem_map, List.mem_range] at hx
  obtain ⟨i, hi, hfi⟩ := hx
  rw [if_neg (by omega)] at hfi
  exact hfi.symm

/-- On a bar sequence of exactly 20 bars the volatility pipeline passes the
length guard, yet the 19 available returns never fill a 20-observation
rolling window: the series is all NaN, the NaN latest value propagates
through the blend, and the final clamp maps NaN to 1. -/
lemma vol_at_20_eq_one (stdFn : List ℚ → ℚ) (self : ModelPredictor)
    (cs : List ℚ) (h : cs.length = 20) :
    predict_volatility stdFn self (some cs) = 1 := by
  have hr : (pctChangeDropna cs).length = 19 := by
    simp [pctChangeDropna, h]
  rw [predict_volatility_some, if_neg (by omega)]
  have hlast : latestVol (rollingVol stdFn (pctChangeDropna cs)) = none := by
    have h1 : (rollingVol stdFn (pctChangeDropna cs)).getLast? = some none := by
      rw [List.getLast?_eq_getElem?]
      have hlen : (rollingVol stdFn (pctChangeDropna cs)).length = 19 := by
        simp [rollingVol, hr]
      rw [hlen]
      rw [rollingVol, hr]
      rw [List.getElem?_map, List.getElem?_range (by norm_num : 18 < 19)]
      simp
    simp [latestVol, h1]
  rw [hlast, blend_none_left]
  rfl

/-- Window structure of the trailing 14 entries of a gain/loss series for
inputs of length at least 20: the window has exactly 14 entries and misses
the artificial leading zero, so each entry comes from the `zipWith`. -/
lemma lastN14_zip (f : ℚ → ℚ → ℚ) (cs : List ℚ) (h20 : 20 ≤ cs.length) :
    (lastN 14 ((0 : ℚ) :: List.zipWith f cs cs.tail)).length = 14 ∧
    ∀ x ∈ lastN 14 ((0 : ℚ) :: List.zipWith f cs cs.tail),
      x ∈ List.zipWith f cs cs.tail := by
  have hys : (List.zipWith f cs cs.tail).length = cs.length - 1 := by
    simp [List.length_zipWith]
  have hstep : ((0 : ℚ) :: List.zipWith f cs cs.tail).length - 14 =
      ((List.zipWith f cs cs.tail).length - 14) + 1 := by
    simp only [List.length_cons]
    omega
  constructor
  · rw [lastN, List.length_drop, List.length_cons]
    omega
  · intro x hx
    rw [lastN, hstep, List.drop_succ_cons] at hx
    exact List.mem_of_mem_drop hx

/-- An all-zero series has zero trailing mean. -/
lemma mean_lastN14_zero (f : ℚ → ℚ → ℚ) (cs : List ℚ)
    (hz : ∀ x ∈ List.zipWith f cs cs.tail, x = 0) :
    mean (lastN 14 ((0 : ℚ) :: List.zipWith f cs cs.tail)) = 0 := by
  have hall : ∀ x ∈ lastN 14 ((0 : ℚ) :: List.zipWith f cs cs.tail), x = 0 := by
    intro x hx
    have hx' := List.mem_of_mem_drop hx
    rcases List.mem_cons.mp hx' with rfl | hmem
    · rfl
    · exact hz x hmem
  rw [mean, List.sum_eq_zero hall, zero_div]

/-- An everywhere-positive series has positive trailing mean once the
window is full. -/
lemma mean_lastN14_pos (f : ℚ → ℚ → ℚ) (cs : List ℚ) (h20 : 20 ≤ cs.length)
    (hp : ∀ x ∈ List.zipWith f cs cs.tail, 0 < x) :
    0 < mean (lastN 14 ((0 : ℚ) :: List.zipWith f cs cs.tail)) := by
  obtain ⟨hlen, hmem⟩ := lastN14_zip f cs h20
  have hpos : ∀ x ∈ lastN 14 ((0 : ℚ) :: List.zipWith f cs cs.tail), 0 < x :=
    fun x hx => hp x (hmem x hx)
  have hne : lastN 14 ((0 : ℚ) :: List.zipWith f cs cs.tail) ≠ [] := by
    intro h0
    rw [h0] at hlen
    simp at hlen
  have hsum := List.sum_pos _ hpos hne
  rw [mean]
  apply div_pos hsum
  rw [hlen]
  norm_num

/-- On a strictly increasing close series every per-bar gain is positive. -/
lemma gain_zip_pos : ∀ cs : List ℚ, List.Chain' (fun a b => a < b) cs →
    ∀ x ∈ List.zipWith (fun a b => if a < b then b - a else 0) cs cs.tail, 0 < x
  | [], _, x, hx => by simp at hx
  | [_], _, x, hx => by simp at hx
  | a :: b :: t, h, x, hx => by
      rw [List.chain'_cons] at h
      simp only [List.tail_cons, List.zipWith_cons_cons, List.mem_cons] at hx
      rcases hx with rfl | hx
      · rw [if_pos h.1]
        linarith [h.1]
      · exact gain_zip_pos (b :: t) h.2 x (by simpa using hx)

/-- On a strictly increasing close series every per-bar loss is zero. -/
lemma loss_zip_zero : ∀ cs : List ℚ, List.Chain' (fun a b => a < b) cs →
    ∀ x ∈ List.zipWith (fun a b => if b < a then a - b else 0) cs cs.tail, x = 0
  | [], _, x, hx => by simp at hx
  | [_], _, x, hx => by simp at hx
  | a :: b :: t, h, x, hx => by
      rw [List.chain'_cons] at h
      simp only [List.tail_cons, List.zipWith_cons_cons, List.mem_cons] at hx
      rcases hx with rfl | hx
      · rw [if_neg (by linarith [h.1])]
      · exact loss_zip_zero (b :: t) h.2 x (by simpa using hx)

/-- On a strictly decreasing close series every per-bar gain is zero. -/
lemma gain_zip_zero : ∀ cs : List ℚ, List.Chain' (fun a b => b < a) cs →
    ∀ x ∈ List.zipWith (fun a b => if a < b then b - a else 0) cs cs.tail, x = 0
  | [], _, x, hx => by simp at hx
  | [_], _, x, hx => by simp at hx
  | a :: b :: t, h, x, hx => by
      rw [List.chain'_cons] at h
      simp only [List.tail_cons, List.zipWith_cons_cons, List.mem_cons] at hx
      rcases hx with rfl | hx
      · rw [if_neg (by linarith [h.1])]
      · exact gain_zip_zero (b :: t) h.2 x (by simpa using hx)

/-- On a strictly decreasing close series every per-bar loss is positive. -/
lemma loss_zip_pos : ∀ cs : List ℚ, List.Chain' (fun a b => b < a) cs →
    ∀ x ∈ List.zipWith (fun a b => if b < a then a - b else 0) cs cs.tail, 0 < x
  | [], _, x, hx => by simp at hx
  | [_], _, x, hx => by simp at hx
  | a :: b :: t, h, x, hx => by
      rw [List.chain'_cons] at h
      simp only [List.tail_cons, List.zipWith_cons_cons, List.mem_cons] at hx
      rcases hx with rfl | hx
      · rw [if_pos h.1]
        linarith [h.1]
      · exact loss_zip_pos (b :: t) h.2 x (by simpa using hx)

/-- RSI at the latest index of a strictly increasing series of length at
least 20: zero average loss with positive average gain takes the
infinite-RS branch, i.e. RSI = 100. -/
lemma rsiLast_increasing (cs : List ℚ) (h20 : 20 ≤ cs.length)
    (hc : List.Chain' (fun a b => a < b) cs) : rsiLast cs = 100 := by
  have hal : mean (lastN 14 (losses cs)) = 0 := by
    unfold losses
    exact mean_lastN14_zero _ cs (loss_zip_zero cs hc)
  have hag : 0 < mean (lastN 14 (gains cs)) := by
    unfold gains
    exact mean_lastN14_pos _ cs h20 (gain_zip_pos cs hc)
  unfold rsiLast
  simp [hal, hag.ne']

/-- RSI at the latest index of a strictly decreasing series of length at
least 20: zero average gain with positive average loss gives RS = 0,
i.e. RSI = 100 − 100/1 = 0. -/
lemma rsiLast_decreasing (cs : List ℚ) (h20 : 20 ≤ cs.length)
    (hc : List.Chain' (fun a b => b < a) cs) : rsiLast cs = 0 := by
  have hag : mean (lastN 14 (gains cs)) = 0 := by
    unfold gains
    exact mean_lastN14_zero _ cs (gain_zip_zero cs hc)
  have hal : 0 < mean (lastN 14 (losses cs)) := by
    unfold losses
    exact mean_lastN14_pos _ cs h20 (loss_zip_pos cs hc)
  unfold rsiLast
  simp [hag, hal.ne']

/-- The fixed data-quality placeholder 0.7 maps to confidence 0.65. -/
lemma conf_point7 (self : ModelPredictor) :
    get_prediction_confidence self 0.7 = 0.65 := by
  unfold get_prediction_confidence
  rw [if_neg (by norm_num), if_pos (by norm_num)]

/-- C1: for every valid input — including inputs engineered to push the
unclamped additive score or blended volatility outside the range, and
including malformed inputs that take the internal error branch (yielding
0.5 and 0.2) — `predict_price_direction` lands in [0.1, 0.9] and
`predict_volatility` lands in [0.05, 1.0]. -/
theorem C1_prediction_bounds (stdFn : List ℚ → ℚ) (self : ModelPredictor)
    (d : RawBars) (_hd : posCloses d) :
    0.1 ≤ predict_price_direction self d ∧ predict_price_direction self d ≤ 0.9 ∧
    0.05 ≤ predict_volatility stdFn self d ∧ predict_volatility stdFn self d ≤ 1 :=
  ⟨(dir_bounds self d).1, (dir_bounds self d).2,
   (vol_bounds stdFn self d).1, (vol_bounds stdFn self d).2⟩

/-- Witness for C1 at the malformed input (error branch): the defaults
0.5 and 0.2 lie inside the clamp bounds. -/
theorem C1_prediction_bounds_witness :
    posCloses (none : RawBars) ∧
    (0.1 ≤ predict_price_direction ⟨none⟩ none ∧
     predict_price_direction ⟨none⟩ none ≤ 0.9 ∧
     0.05 ≤ predict_volatility stdZero ⟨none⟩ none ∧
     predict_volatility stdZero ⟨none⟩ none ≤ 1) :=
  ⟨trivial, C1_prediction_bounds stdZero ⟨none⟩ none trivial⟩

/-- C2: every bar sequence of fewer than 20 bars (including the empty one)
hits the input guard before any indicator computation: direction is
exactly 0.5 and volatility exactly 0.2. -/
theorem C2_short_input_neutral (stdFn : List ℚ → ℚ) (self : ModelPredictor)
    (cs : List ℚ) (h : cs.length < 20) :
    predict_price_direction self (some cs) = 0.5 ∧
    predict_volatility stdFn self (some cs) = 0.2 := by
  constructor
  · rw [predict_price_direction_some, if_pos h]
  · rw [predict_volatility_some, if_pos h]

/-- Witness for C2 at the empty bar sequence. -/
theorem C2_short_input_neutral_witness :
    ([] : List ℚ).length < 20 ∧
    (predict_price_direction ⟨none⟩ (some []) = 0.5 ∧
     predict_volatility stdZero ⟨none⟩ (some []) = 0.2) :=
  ⟨by decide, C2_short_input_neutral stdZero ⟨none⟩ [] (by decide)⟩

/-- C3 counterexample: on the flat close 100 × 20-bar scenario the claimed
bound `predict_volatility ≤ 0.2` is false — the 19 returns never fill the
20-observation rolling window, the all-NaN series propagates through the
blend, and the final clamp maps NaN to exactly 1. -/
theorem C3_flat20_counterexample :
    predict_volatility stdZero ⟨none⟩ (some flat20) = 1 ∧
    ¬ predict_volatility stdZero ⟨none⟩ (some flat20) ≤ 0.2 := by
  have h := vol_at_20_eq_one stdZero ⟨none⟩ flat20 (by decide)
  refine ⟨h, ?_⟩
  rw [h]
  norm_num

/-- C3 (amended): on the flat close 100 × 20-bar sequence the direction
score is exactly 0.5 and `get_prediction_confidence 0.7 = 0.65` as
claimed, but the volatility prediction is exactly 1 (the NaN rolling
series through the clamp), not ≤ 0.2. -/
theorem C3_flat20_scenario (stdFn : List ℚ → ℚ) (self : ModelPredictor) :
    predict_price_direction self (some flat20) = 0.5 ∧
    predict_volatility stdFn self (some flat20) = 1 ∧
    get_prediction_confidence self 0.7 = 0.65 := by
  refine ⟨?_, vol_at_20_eq_one stdFn self flat20 (by decide), conf_point7 self⟩
  rw [predict_price_direction_some, if_neg (by decide)]
  exact directionScore_flat20

/-- C8: a computation fault inside either predictor's `try` body is caught
at the operation boundary and mapped to that operation's neutral default —
0.5 for direction, 0.2 for volatility — never propagated to the caller. -/
theorem C8_fault_neutral_default (stdFn : List ℚ → ℚ) (self : ModelPredictor)
    (d : RawBars) :
    (predict_price_direction_body self d = Except.error () →
      predict_price_direction self d = 0.5) ∧
    (predict_volatility_body stdFn self d = Except.error () →
      predict_volatility stdFn self d = 0.2) := by
  constructor
  · intro h
    unfold predict_price_direction
    rw [h]
  · intro h
    unfold predict_volatility
    rw [h]

/-- Witness for C8 at a malformed input, whose processing raises. -/
theorem C8_fault_neutral_default_witness :
    predict_price_direction_body ⟨none⟩ none = Except.error () ∧
    predict_price_direction ⟨none⟩ none = 0.5 ∧
    predict_volatility_body stdZero ⟨none⟩ none = Except.error () ∧
    predict_volatility stdZero ⟨none⟩ none = 0.2 :=
  ⟨rfl, (C8_fault_neutral_default stdZero ⟨none⟩ none).1 rfl,
   rfl, (C8_fault_neutral_default stdZero ⟨none⟩ none).2 rfl⟩

/-- C9: on exactly 20 bars with numeric nonzero closes the volatility
scorer does not return the insufficient-history default 0.2: the rolling
standard deviation of the 19 returns is undefined everywhere, the NaN
latest and mean volatilities propagate through the 0.7/0.3 blend, and the
final clamp evaluates the NaN to exactly 1. -/
theorem C9_twenty_bar_volatility_one (stdFn : List ℚ → ℚ)
    (self : ModelPredictor) (cs : List ℚ) (hlen : cs.length = 20)
    (_hnz : ∀ c ∈ cs, c ≠ 0) :
    predict_volatility stdFn self (some cs) = 1 :=
  vol_at_20_eq_one stdFn self cs hlen

/-- Witness for C9 at the flat 20-bar sequence. -/
theorem C9_twenty_bar_volatility_one_witness :
    flat20.length = 20 ∧ (∀ c ∈ flat20, c ≠ 0) ∧
    predict_volatility stdZero ⟨none⟩ (some flat20) = 1 := by
  have hnz : ∀ c ∈ flat20, c ≠ 0 := by
    intro c hc
    simp only [flat20, List.mem_cons, List.not_mem_nil, or_false, or_self] at hc
    rw [hc]
    norm_num
  exact ⟨by decide, hnz,
    C9_twenty_bar_volatility_one stdZero ⟨none⟩ flat20 (by decide) hnz⟩

/-- C4: for bar sequences of at least 20 bars on which no internal fault
occurs (in particular the momentum denominator `iloc[-5]` is nonzero), the
direction prediction is exactly the clamp to [0.1, 0.9] of
0.5 + trend + rsi + momentum adjustments as the spec words them. -/
theorem C4_direction_rule_formula (self : ModelPredictor) (cs : List ℚ)
    (h20 : 20 ≤ cs.length) (h5 : cs.getD (cs.length - 5) 0 ≠ 0) :
    predict_price_direction self (some cs) =
      specClamp 0.1 0.9 (0.5 + specTrendAdj cs + specRsiAdj cs + specMomAdj cs) := by
  rw [predict_price_direction_some, if_neg (by omega)]
  simp only [directionScore, specTrendAdj, specRsiAdj, specMomAdj, specClamp, momTerm]
  rw [if_pos (show 5 ≤ cs.length by omega), if_neg h5]
  simp only [pyMax_eq_max, pyMin_eq_min]
  rw [min_max_distrib_left, min_eq_right (show (-0.2 : ℚ) ≤ 0.2 by norm_num)]

/-- Witness for C4 at the flat 20-bar sequence (nonzero `iloc[-5]`). -/
theorem C4_direction_rule_formula_witness :
    20 ≤ flat20.length ∧ flat20.getD (flat20.length - 5) 0 ≠ 0 ∧
    predict_price_direction ⟨none⟩ (some flat20) =
      specClamp 0.1 0.9 (0.5 + specTrendAdj flat20 + specRsiAdj flat20 + specMomAdj flat20) := by
  have h5 : flat20.getD (flat20.length - 5) 0 ≠ 0 := by
    have h : flat20.getD (flat20.length - 5) 0 = 100 := rfl
    rw [h]
    norm_num
  exact ⟨by decide, h5, C4_direction_rule_formula ⟨none⟩ flat20 (by decide) h5⟩

/-- C5 counterexample: in a 3-instrument batch whose second instrument has
a malformed bar argument, the result still has all 3 keys, but the
malformed instrument's entry is NOT the unavailable marker (`none`): the
predictors absorb the fault themselves and batch assembly stores a full
neutral record (0.5, 0.2, 0.65). -/
theorem C5_unavailable_marker_counterexample :
    batch_predict stdZero ⟨none⟩ dataC5 =
      [("AAPL", some ⟨0.5, 0.2, 0.65⟩), ("BADX", some ⟨0.5, 0.2, 0.65⟩),
       ("MSFT", some ⟨0.5, 0.2, 0.65⟩)] ∧
    (some (⟨0.5, 0.2, 0.65⟩ : PredictionRecord) : Option PredictionRecord) ≠ none := by
  constructor
  · have h1 : predict_price_direction (⟨none⟩ : ModelPredictor) (some [10, 11, 12]) = 0.5 := by
      rw [predict_price_direction_some, if_pos (by decide)]
    have h2 : predict_volatility stdZero (⟨none⟩ : ModelPredictor) (some [10, 11, 12]) = 0.2 := by
      rw [predict_volatility_some, if_pos (by decide)]
    have h3 : predict_price_direction (⟨none⟩ : ModelPredictor) (some [7, 8]) = 0.5 := by
      rw [predict_price_direction_some, if_pos (by decide)]
    have h4 : predict_volatility stdZero (⟨none⟩ : ModelPredictor) (some [7, 8]) = 0.2 := by
      rw [predict_volatility_some, if_pos (by decide)]
    simp [batch_predict, dataC5, h1, h2, h3, h4, conf_point7,
      predict_price_direction_none, predict_volatility_none]
  · simp

/-- C5 (amended): in a 3-instrument batch where exactly one instrument has
a malformed or empty bar sequence, the result keeps all 3 keys and
processing of the other instruments continues, but the bad instrument's
entry is a full neutral Prediction Record (0.5, 0.2, 0.65) — the
per-operation handlers absorb the fault before the batch-level
unavailable marker can be assigned — while the other two entries are
records with fields in their documented ranges. -/
theorem C5_batch_isolated_neutral (stdFn : List ℚ → ℚ) (self : ModelPredictor)
    (a b c : String) (da db dc : RawBars)
    (hb : db = none ∨ db = some []) (_hda : posCloses da) (_hdc : posCloses dc) :
    ∃ ra rc : PredictionRecord,
      batch_predict stdFn self [(a, da), (b, db), (c, dc)] =
        [(a, some ra), (b, some ⟨0.5, 0.2, 0.65⟩), (c, some rc)] ∧
      0.1 ≤ ra.price_direction_prob ∧ ra.price_direction_prob ≤ 0.9 ∧
      0.05 ≤ ra.predicted_volatility ∧ ra.predicted_volatility ≤ 1 ∧
      ra.confidence = 0.65 ∧
      0.1 ≤ rc.price_direction_prob ∧ rc.price_direction_prob ≤ 0.9 ∧
      0.05 ≤ rc.predicted_volatility ∧ rc.predicted_volatility ≤ 1 ∧
      rc.confidence = 0.65 := by
  have hbdir : predict_price_direction self db = 0.5 := by
    rcases hb with rfl | rfl
    · rfl
    · rw [predict_price_direction_some, if_pos (by decide)]
  have hbvol : predict_volatility stdFn self db = 0.2 := by
    rcases hb with rfl | rfl
    · rfl
    · rw [predict_volatility_some, if_pos (by decide)]
  exact ⟨⟨predict_price_direction self da, predict_volatility stdFn self da,
      get_prediction_confidence self 0.7⟩,
    ⟨predict_price_direction self dc, predict_volatility stdFn self dc,
      get_prediction_confidence self 0.7⟩,
    by simp [batch_predict, hbdir, hbvol, conf_point7],
    (dir_bounds self da).1, (dir_bounds self da).2,
    (vol_bounds stdFn self da).1, (vol_bounds stdFn self da).2,
    conf_point7 self,
    (dir_bounds self dc).1, (dir_bounds self dc).2,
    (vol_bounds stdFn self dc).1, (vol_bounds stdFn self dc).2,
    conf_point7 self⟩

/-- Witness for the amended C5 at a concrete 3-instrument batch with an
empty bar sequence in the middle. -/
theorem C5_batch_isolated_neutral_witness :
    ((some [] : RawBars) = none ∨ (some [] : RawBars) = some []) ∧
    posCloses (some [1, 2]) ∧ posCloses (some [3]) ∧
    (∃ ra rc : PredictionRecord,
      batch_predict stdZero ⟨none⟩ [("A", some [1, 2]), ("B", some []), ("C", some [3])] =
        [("A", some ra), ("B", some ⟨0.5, 0.2, 0.65⟩), ("C", some rc)] ∧
      0.1 ≤ ra.price_direction_prob ∧ ra.price_direction_prob ≤ 0.9 ∧
      0.05 ≤ ra.predicted_volatility ∧ ra.predicted_volatility ≤ 1 ∧
      ra.confidence = 0.65 ∧
      0.1 ≤ rc.price_direction_prob ∧ rc.price_direction_prob ≤ 0.9 ∧
      0.05 ≤ rc.predicted_volatility ∧ rc.predicted_volatility ≤ 1 ∧
      rc.confidence = 0.65) := by
  have hp1 : posCloses (some ([1, 2] : List ℚ)) := by
    norm_num [posCloses]
  have hp2 : posCloses (some ([3] : List ℚ)) := by
    norm_num [posCloses]
  exact ⟨Or.inr rfl, hp1, hp2,
    C5_batch_isolated_neutral stdZero ⟨none⟩ "A" "B" "C"
      (some [1, 2]) (some []) (some [3]) (Or.inr rfl) hp1 hp2⟩

/-- C6: the RSI at the latest position is exactly 100 on any strictly
increasing close series of length at least 20 (zero average loss branch)
and exactly 0 on any strictly decreasing one. -/
theorem C6_rsi_extremes (cs : List ℚ) (h20 : 20 ≤ cs.length) :
    (List.Chain' (fun a b => a < b) cs → rsiLast cs = 100) ∧
    (List.Chain' (fun a b => b < a) cs → rsiLast cs = 0) :=
  ⟨rsiLast_increasing cs h20, rsiLast_decreasing cs h20⟩

/-- Witness for C6 at concrete increasing and decreasing 20-bar series. -/
theorem C6_rsi_extremes_witness :
    (20 ≤ incCloses.length ∧ List.Chain' (fun a b => a < b) incCloses ∧
      rsiLast incCloses = 100) ∧
    (20 ≤ decCloses.length ∧ List.Chain' (fun a b => b < a) decCloses ∧
      rsiLast decCloses = 0) := by
  have hinc : List.Chain' (fun a b => a < b) incCloses := by
    norm_num [incCloses, List.chain'_cons]
  have hdec : List.Chain' (fun a b => b < a) decCloses := by
    norm_num [decCloses, List.chain'_cons]
  exact ⟨⟨by decide, hinc, (C6_rsi_extremes incCloses (by decide)).1 hinc⟩,
    ⟨by decide, hdec, (C6_rsi_extremes decCloses (by decide)).2 hdec⟩⟩

/-- C7: the confidence mapping is a pure step function of the data-quality
argument with strictly exclusive upper boundaries, and takes the four
claimed sample values. -/
theorem C7_confidence_step_function :
    (∀ (self : ModelPredictor) (q : ℚ),
      (get_prediction_confidence self q = 0.75 ↔ 0.8 < q) ∧
      (get_prediction_confidence self q = 0.65 ↔ 0.6 < q ∧ q ≤ 0.8) ∧
      (get_prediction_confidence self q = 0.55 ↔ 0.4 < q ∧ q ≤ 0.6) ∧
      (get_prediction_confidence self q = 0.45 ↔ q ≤ 0.4)) ∧
    get_prediction_confidence ⟨none⟩ 0.85 = 0.75 ∧
    get_prediction_confidence ⟨none⟩ 0.8 = 0.65 ∧
    get_prediction_confidence ⟨none⟩ 0.5 = 0.55 ∧
    get_prediction_confidence ⟨none⟩ 0.1 = 0.45 := by
  refine ⟨fun self q => ?_, ?_, ?_, ?_, ?_⟩
  · unfold get_prediction_confidence
    split_ifs with h1 h2 h3
    · exact ⟨iff_of_true rfl h1,
        iff_of_false (by norm_num) (fun h => absurd h1 (not_lt.mpr h.2)),
        iff_of_false (by norm_num)
          (fun h => absurd h1 (not_lt.mpr (h.2.trans (by norm_num)))),
        iff_of_false (by norm_num)
          (fun h => absurd h1 (not_lt.mpr (h.trans (by norm_num))))⟩
    · exact ⟨iff_of_false (by norm_num) h1,
        iff_of_true rfl ⟨h2, not_lt.mp h1⟩,
        iff_of_false (by norm_num) (fun h => absurd h2 (not_lt.mpr h.2)),
        iff_of_false (by norm_num)
          (fun h => absurd h2 (not_lt.mpr (h.trans (by norm_num))))⟩
    · exact ⟨iff_of_false (by norm_num) h1,
        iff_of_false (by norm_num) (fun h => absurd h.1 h2),
        iff_of_true rfl ⟨h3, not_lt.mp h2⟩,
        iff_of_false (by norm_num) (fun h => absurd h3 (not_lt.mpr h))⟩
    · exact ⟨iff_of_false (by norm_num) h1,
        iff_of_false (by norm_num) (fun h => absurd h.1 h2),
        iff_of_false (by norm_num) (fun h => absurd h.1 h3),
        iff_of_true rfl (not_lt.mp h3)⟩
  · unfold get_prediction_confidence
    rw [if_pos (by norm_num)]
  · unfold get_prediction_confidence
    rw [if_neg (by norm_num), if_pos (by norm_num)]
  · unfold get_prediction_confidence
    rw [if_neg (by norm_num), if_neg (by norm_num), if_pos (by norm_num)]
  · unfold get_prediction_confidence
    rw [if_neg (by norm_num), if_neg (by norm_num), if_neg (by norm_num)]

/-- C10: no prediction output depends on the presence or contents of the
loaded metadata: two predictor instances with different metadata stores
(including one with none loaded) agree on every operation and input. -/
theorem C10_metadata_noninterference (stdFn : List ℚ → ℚ)
    (p1 p2 : ModelPredictor) (_hmeta : p1.metadata ≠ p2.metadata)
    (d : RawBars) (q : ℚ) (data : List (String × RawBars)) :
    predict_price_direction p1 d = predict_price_direction p2 d ∧
    predict_volatility stdFn p1 d = predict_volatility stdFn p2 d ∧
    get_prediction_confidence p1 q = get_prediction_confidence p2 q ∧
    batch_predict stdFn p1 data = batch_predict stdFn p2 data :=
  ⟨rfl, rfl, rfl, rfl⟩

/-- Witness for C10: a predictor without metadata versus one with
metadata, on the flat 20-bar input. -/
theorem C10_metadata_noninterference_witness :
    (⟨none⟩ : ModelPredictor).metadata ≠ (⟨some "v1"⟩ : ModelPredictor).metadata ∧
    (predict_price_direction ⟨none⟩ (some flat20) =
       predict_price_direction ⟨some "v1"⟩ (some flat20) ∧
     predict_volatility stdZero ⟨none⟩ (some flat20) =
       predict_volatility stdZero ⟨some "v1"⟩ (some flat20) ∧
     get_prediction_confidence ⟨none⟩ 0.7 =
       get_prediction_confidence ⟨some "v1"⟩ 0.7 ∧
     batch_predict stdZero ⟨none⟩ dataC5 = batch_predict stdZero ⟨some "v1"⟩ dataC5) :=
  ⟨by simp, C10_metadata_noninterference stdZero ⟨none⟩ ⟨some "v1"⟩ (by simp)
    (some flat20) 0.7 dataC5⟩

end Elysian
